import Mathlib

/-!
Verification of the meshguard-python client core: the decision protocol and
enforcement state machine (Decision Resolver, Enforcement Gate, Tool
Governance Adapter) as implemented in `src/meshguard/client.py`,
`src/meshguard/exceptions.py` and `src/meshguard/langchain.py`.

The shallow embedding models one request/response round trip explicitly:
each client operation takes the stimulus `Response` the transport would
return and yields the list of `Request`s it issued together with its
result (`Except MGError _` mirrors Python return-or-raise control flow).
-/

namespace MeshGuard

/-- Python string truthiness used by `x or default` on an optional string:
`None` and the empty string are falsy. -/
def pyOrStr (s : Option String) (d : String) : String :=
  match s with
  | none => d
  | some t => if t = "" then d else t

/-- Python `a or b` where both sides are optional strings. -/
def pyOrOpt (a b : Option String) : Option String :=
  match a with
  | none => b
  | some t => if t = "" then b else some t

/-- A single-quote character as a string (used in denial messages). -/
def apos : String := String.singleton (Char.ofNat 39)

/-- One agent object inside an `/admin/agents` response body (the keys
`id`, `name`, `trustTier` are required by `list_agents`; `tags` and
`orgId` are read with defaults). -/
structure AgentObj where
  id : String
  name : String
  trustTier : String
  tags : List String := []
  orgId : Option String := none
deriving Repr, DecidableEq

/-- A parsed JSON response body, restricted to the keys the client core
reads (`policy`, `rule`, `action`, `message` on policy responses,
`agents` on the admin listing). An empty dict is the record of defaults. -/
structure Body where
  policy : Option String := none
  rule : Option String := none
  action : Option String := none
  message : Option String := none
  agents : List AgentObj := []
deriving Repr, DecidableEq

/-- A raw transport response: status code, parsed body when content is
present (`none` models absent/empty content), and the raw body text. -/
structure Response where
  status : Nat
  body : Option Body := none
  text : String := ""
deriving Repr, DecidableEq

/-- `PolicyDecision` from `client.py`: the typed result of a policy query. -/
structure PolicyDecision where
  allowed : Bool
  action : String
  decision : String
  policy : Option String := none
  rule : Option String := none
  reason : Option String := none
  trace_id : Option String := none
deriving Repr, DecidableEq

/-- `Agent` from `client.py`. -/
structure Agent where
  id : String
  name : String
  trust_tier : String
  tags : List String := []
  org_id : Option String := none
deriving Repr, DecidableEq

/-- `PolicyDeniedError` from `exceptions.py`, after its constructor ran:
the stored attribution fields plus the formatted human-readable message. -/
structure PolicyDeniedError where
  action : String
  policy : Option String
  rule : Option String
  reason : String
  message : String
deriving Repr, DecidableEq

/-- The body of `PolicyDeniedError.__init__`: defaults the reason via
Python `or` and builds the message
`Action '<action>' denied[ by policy '<p>'][ (rule: <r>)]: <reason>`. -/
def PolicyDeniedError.init (action : String) (policy rule reason : Option String) :
    PolicyDeniedError :=
  let r := pyOrStr reason "Access denied by policy"
  let m1 := "Action " ++ apos ++ action ++ apos ++ " denied"
  let m2 :=
    match policy with
    | some p => if p = "" then m1 else m1 ++ " by policy " ++ apos ++ p ++ apos
    | none => m1
  let m3 :=
    match rule with
    | some ru => if ru = "" then m2 else m2 ++ " (rule: " ++ ru ++ ")"
    | none => m2
  { action := action, policy := policy, rule := rule, reason := r,
    message := m3 ++ ": " ++ r }

/-- The exception taxonomy of `exceptions.py`: `MeshGuardError` and its
subclasses `AuthenticationError`, `PolicyDeniedError`, `RateLimitError`. -/
inductive MGError where
  | meshGuardError (msg : String)
  | authenticationError (msg : String)
  | policyDenied (e : PolicyDeniedError)
  | rateLimitError (msg : String)
deriving Repr, DecidableEq

/-- Client configuration, read at construction and immutable thereafter
(`MeshGuardClient.__init__` state). The `timeout` is only handed to the
external HTTP transport. -/
structure MeshGuardClient where
  gateway_url : String
  agent_token : Option String := none
  admin_token : Option String := none
  timeout : Float := 30.0
  trace_id : String
deriving Repr

/-- `MeshGuardClient.__init__`: resolves each setting from the explicit
argument, then the environment value, then the default; strips trailing
slashes from the gateway URL; binds the supplied trace id or the freshly
generated uuid. -/
def MeshGuardClient.init (gateway_url agent_token admin_token : Option String)
    (timeout : Float) (trace_id : Option String)
    (env_gateway_url env_agent_token env_admin_token : Option String)
    (fresh_uuid : String) : MeshGuardClient :=
  { gateway_url :=
      (pyOrStr (pyOrOpt gateway_url env_gateway_url) "http://localhost:3100").dropRightWhile
        (fun ch => ch = '/'),
    agent_token := pyOrOpt agent_token env_agent_token,
    admin_token := pyOrOpt admin_token env_admin_token,
    timeout := timeout,
    trace_id := pyOrStr trace_id fresh_uuid }

/-- Request headers as an ordered key/value list. -/
abbrev Headers := List (String × String)

/-- An outgoing HTTP request as the core constructs it. -/
structure Request where
  method : String
  url : String
  headers : Headers
deriving Repr, DecidableEq

/-- `MeshGuardClient._headers`: the trace id header, plus the bearer
header when auth is requested and an agent token is configured. -/
def MeshGuardClient.reqHeaders (c : MeshGuardClient) (include_auth : Bool) : Headers :=
  [("X-MeshGuard-Trace-ID", c.trace_id)] ++
    (if include_auth then
      match c.agent_token with
      | some tok => if tok = "" then [] else [("Authorization", "Bearer " ++ tok)]
      | none => []
    else [])

/-- `MeshGuardClient._admin_headers`: fails locally when no admin token is
configured (Python truthiness: an empty token also fails), else the admin
header plus the trace id header. -/
def MeshGuardClient.adminHeaders (c : MeshGuardClient) : Except MGError Headers :=
  match c.admin_token with
  | none => .error (.authenticationError "Admin token required for this operation")
  | some tok =>
      if tok = "" then .error (.authenticationError "Admin token required for this operation")
      else .ok [("X-Admin-Token", tok), ("X-MeshGuard-Trace-ID", c.trace_id)]

/-- `MeshGuardClient._handle_response`, the Decision Resolver: 401 raises
`AuthenticationError`, 403 raises `PolicyDeniedError` built from the body
(with defaults for absent keys), 429 raises `RateLimitError`, any other
status >= 400 raises `MeshGuardError` carrying the status and raw text,
and a success returns the parsed body (empty content parses as empty). -/
def MeshGuardClient.handleResponse (resp : Response) : Except MGError Body :=
  if resp.status = 401 then
    .error (.authenticationError "Invalid or expired token")
  else if resp.status = 403 then
    let data := resp.body.getD {}
    .error (.policyDenied (PolicyDeniedError.init (data.action.getD "unknown")
      data.policy data.rule (some (data.message.getD "Access denied by policy"))))
  else if resp.status = 429 then
    .error (.rateLimitError "Rate limit exceeded")
  else if 400 ≤ resp.status then
    .error (.meshGuardError ("Request failed: " ++ toString resp.status ++ " " ++ resp.text))
  else
    .ok (resp.body.getD {})

/-- The `X-MeshGuard-Resource` header, attached only when the resource is
truthy (`if resource:` in the source). -/
def resourceHeader (resource : Option String) : Headers :=
  match resource with
  | some r => if r = "" then [] else [("X-MeshGuard-Resource", r)]
  | none => []

/-- The single GET request `check` issues to `/proxy/check`. -/
def MeshGuardClient.checkRequest (c : MeshGuardClient) (action : String)
    (resource : Option String) : Request :=
  { method := "GET", url := c.gateway_url ++ "/proxy/check",
    headers := c.reqHeaders true ++ [("X-MeshGuard-Action", action)] ++
      resourceHeader resource }

/-- The advisory deny decision `check action` captures from a 403 response:
fields come straight from the body, with no defaulting (`reason` is the
body's `message` key as-is, `action` is the requested action). -/
def MeshGuardClient.denyDecisionOf (c : MeshGuardClient) (action : String)
    (resp : Response) : PolicyDecision :=
  { allowed := false, action := action, decision := "deny",
    policy := (resp.body.getD {}).policy, rule := (resp.body.getD {}).rule,
    reason := (resp.body.getD {}).message, trace_id := some c.trace_id }

/-- The denial `enforce action` raises on a 403 response: the
`PolicyDeniedError` constructed from the advisory deny decision's
attribution (so its reason passes through the constructor's defaulting). -/
def MeshGuardClient.denialOf (action : String) (resp : Response) : PolicyDeniedError :=
  PolicyDeniedError.init action (resp.body.getD {}).policy (resp.body.getD {}).rule
    (resp.body.getD {}).message

/-- `MeshGuardClient.check`: issues one GET to `/proxy/check` with the
action (and truthy resource) headers; a 403 is captured as an advisory
deny `PolicyDecision` whose fields come straight from the body; otherwise
the response is resolved, a success becomes an allow decision, a
`PolicyDeniedError` raised below is converted back to a deny decision,
and every other error propagates. -/
def MeshGuardClient.check (c : MeshGuardClient) (action : String)
    (resource : Option String) (resp : Response) :
    List Request × Except MGError PolicyDecision :=
  let req := c.checkRequest action resource
  if resp.status = 403 then
    ([req], .ok (c.denyDecisionOf action resp))
  else
    match MeshGuardClient.handleResponse resp with
    | .ok data =>
        ([req], .ok { allowed := true, action := action, decision := "allow",
                      policy := data.policy, trace_id := some c.trace_id })
    | .error (.policyDenied e) =>
        ([req], .ok { allowed := false, action := action, decision := "deny",
                      policy := e.policy, rule := e.rule, reason := some e.reason,
                      trace_id := some c.trace_id })
    | .error e => ([req], .error e)

/-- `MeshGuardClient.enforce`: calls `check`; a deny decision is escalated
into a raised `PolicyDeniedError` built from the decision attribution, an
allow decision is returned unchanged, every error propagates. -/
def MeshGuardClient.enforce (c : MeshGuardClient) (action : String)
    (resource : Option String) (resp : Response) :
    List Request × Except MGError PolicyDecision :=
  let p := c.check action resource resp
  match p.2 with
  | .error e => (p.1, .error e)
  | .ok d =>
      if d.allowed then (p.1, .ok d)
      else (p.1, .error (.policyDenied (PolicyDeniedError.init action d.policy d.rule d.reason)))

/-- `GovernedContext.__exit__` is a pass statement: it releases nothing
and leaves the ambient state untouched. -/
def GovernedContext.exit {σ : Type} (s : σ) : σ := s

/-- The `with client.govern(action, resource) as decision:` statement:
acquisition runs `enforce` (through `GovernedContext.__enter__`); on a
raised error the guarded body never runs and the error propagates; on
success the body runs on the ambient state with the decision in scope and
release is `GovernedContext.exit`. The ambient state `σ` makes the body's
side effects observable. -/
def MeshGuardClient.govern {σ α : Type} (c : MeshGuardClient) (action : String)
    (resource : Option String) (resp : Response)
    (body : PolicyDecision → σ → σ × α) (s : σ) :
    List Request × σ × Except MGError α :=
  let p := c.enforce action resource resp
  match p.2 with
  | .error e => (p.1, s, .error e)
  | .ok d =>
      let r := body d s
      (p.1, GovernedContext.exit r.1, .ok r.2)

/-- `GovernedTool` from `langchain.py`: a wrapped tool (its invocation is
a state transformer over `σ` so that calls are observable), the action it
is governed by, the copied metadata, and the optional deny-callback. -/
structure GovernedTool (σ α : Type) where
  toolRun : List String → σ → σ × α
  action : String
  name : String := ""
  description : String := ""
  on_deny : Option (PolicyDeniedError → List String → α) := none

/-- `GovernedTool.run`: enforces the tool's action; on success forwards
the arguments unchanged to the wrapped tool's invocation and returns its
result verbatim; on a raised `PolicyDeniedError` invokes the configured
deny-callback with the denial and the original arguments (returning its
result), or propagates when none is configured; every other error
propagates untouched. -/
def GovernedTool.run {σ α : Type} (t : GovernedTool σ α) (c : MeshGuardClient)
    (resp : Response) (args : List String) (s : σ) : σ × Except MGError α :=
  match (c.enforce t.action none resp).2 with
  | .ok _ =>
      let r := t.toolRun args s
      (r.1, .ok r.2)
  | .error (.policyDenied e) =>
      match t.on_deny with
      | some cb => (s, .ok (cb e args))
      | none => (s, .error (.policyDenied e))
  | .error e => (s, .error e)

/-- `MeshGuardClient.list_agents`: builds the admin headers (failing
locally, before any request, when the admin token is missing), issues one
GET to `/admin/agents`, resolves the response, and maps the body's agent
objects into `Agent` values. -/
def MeshGuardClient.list_agents (c : MeshGuardClient) (resp : Response) :
    List Request × Except MGError (List Agent) :=
  match c.adminHeaders with
  | .error e => ([], .error e)
  | .ok hs =>
      let req : Request := { method := "GET", url := c.gateway_url ++ "/admin/agents",
                             headers := hs }
      match MeshGuardClient.handleResponse resp with
      | .error e => ([req], .error e)
      | .ok data =>
          ([req], .ok (data.agents.map (fun a =>
            { id := a.id, name := a.name, trust_tier := a.trustTier,
              tags := a.tags, org_id := a.orgId })))

/-- `MeshGuardClient.health`: issues one GET to `/health` with no headers
at all and returns the parsed body (`none` when the body is absent, where
the Python `response.json()` would fail). -/
def MeshGuardClient.health (c : MeshGuardClient) (resp : Response) :
    List Request × Option Body :=
  ([{ method := "GET", url := c.gateway_url ++ "/health", headers := [] }], resp.body)

/-- `MeshGuardClient.request`: a governed proxy request; attaches the
standard headers plus the action header, issues one request to
`/proxy/<path>` (leading slashes stripped), resolves the response for
errors and returns the raw response. -/
def MeshGuardClient.request (c : MeshGuardClient) (method path action : String)
    (resp : Response) : List Request × Except MGError Response :=
  let headers := c.reqHeaders true ++ [("X-MeshGuard-Action", action)]
  let req : Request := { method := method,
                         url := c.gateway_url ++ "/proxy/" ++ path.dropWhile (fun ch => ch = '/'),
                         headers := headers }
  match MeshGuardClient.handleResponse resp with
  | .error e => ([req], .error e)
  | .ok _ => ([req], .ok resp)

/-! Concrete fixtures used by witnesses and counterexamples. -/

/-- A concrete client configuration for witnesses. -/
def testClient : MeshGuardClient :=
  { gateway_url := "https://test.meshguard.app", agent_token := some "tok",
    admin_token := none, trace_id := "trace-1" }

/-- A 200 response with body `\x7b"policy": "default"\x7d`. -/
def resp200pol : Response := { status := 200, body := some { policy := some "default" } }

/-- A 200 response with no content. -/
def resp200empty : Response := { status := 200 }

/-- A 403 response with no content. -/
def resp403empty : Response := { status := 403 }

/-- A 403 response with a full denial body. -/
def resp403full : Response :=
  { status := 403,
    body := some { policy := some "strict", rule := some "no-delete",
                   message := some "Delete operations not allowed" } }

/-- A 500 response with diagnostic text. -/
def resp500 : Response := { status := 500, text := "boom" }

/-- A 401 response. -/
def resp401 : Response := { status := 401 }

/-- A 429 response. -/
def resp429 : Response := { status := 429 }

/-- The allow decision `check "read:contacts"` yields on `resp200pol`. -/
def decisionAllowEx : PolicyDecision :=
  { allowed := true, action := "read:contacts", decision := "allow",
    policy := some "default", trace_id := some "trace-1" }

/-- The advisory deny decision `check "read:contacts"` yields on `resp403empty`. -/
def checkDenyEmptyEx : PolicyDecision :=
  { allowed := false, action := "read:contacts", decision := "deny",
    policy := none, rule := none, reason := none, trace_id := some "trace-1" }

/-- The denial `enforce "read:contacts"` raises on `resp403empty`. -/
def enforceDenyEmptyEx : PolicyDeniedError := PolicyDeniedError.init "read:contacts" none none none

/-- The request `check` issues from `testClient` for action `read:contacts`. -/
def checkReqEx : Request :=
  { method := "GET", url := "https://test.meshguard.app/proxy/check",
    headers := [("X-MeshGuard-Trace-ID", "trace-1"), ("Authorization", "Bearer tok"),
                ("X-MeshGuard-Action", "read:contacts")] }

/-- The header-less request `health` issues from `testClient`. -/
def healthReqEx : Request :=
  { method := "GET", url := "https://test.meshguard.app/health", headers := [] }

/-- A guarded body whose side effect is bumping a counter. -/
def countingBody : PolicyDecision → Nat → Nat × String := fun _ n => (n + 1, "ran")

/-- A governed tool whose wrapped invocation bumps a counter, with a
deny-callback returning "Access denied". -/
def toolWithCallbackEx : GovernedTool Nat String :=
  { toolRun := fun _ n => (n + 1, "tool ran"), action := "write:dangerous",
    name := "danger", on_deny := some (fun _ _ => "Access denied") }

/-- The same governed tool with no deny-callback configured. -/
def toolNoCallbackEx : GovernedTool Nat String :=
  { toolRun := fun _ n => (n + 1, "tool ran"), action := "write:dangerous",
    name := "danger", on_deny := none }

deriving instance DecidableEq for Except

/-! ## Theorems -/

/-- C5: resolution classifies status codes into error kinds: 401 yields the
authentication failure, 429 yields the rate-limit failure, and any other
status >= 400 other than 403 yields the generic failure carrying the
status code and the raw body text; resolution is a single pure evaluation,
so no retry occurs. -/
theorem resolver_status_classification (resp : Response) :
    (resp.status = 401 →
      MeshGuardClient.handleResponse resp =
        .error (.authenticationError "Invalid or expired token")) ∧
    (resp.status = 429 →
      MeshGuardClient.handleResponse resp = .error (.rateLimitError "Rate limit exceeded")) ∧
    (400 ≤ resp.status → resp.status ≠ 401 → resp.status ≠ 403 → resp.status ≠ 429 →
      MeshGuardClient.handleResponse resp =
        .error (.meshGuardError ("Request failed: " ++ toString resp.status ++ " " ++ resp.text))) := by
  refine ⟨fun h => ?_, fun h => ?_, fun h4 h1 h3 h9 => ?_⟩ <;>
    simp [MeshGuardClient.handleResponse, *]

/-- Witness for C5 at statuses 401, 429 and 500. -/
theorem resolver_status_classification_witness :
    MeshGuardClient.handleResponse resp401 =
      .error (.authenticationError "Invalid or expired token") ∧
    MeshGuardClient.handleResponse resp429 = .error (.rateLimitError "Rate limit exceeded") ∧
    MeshGuardClient.handleResponse resp500 =
      .error (.meshGuardError ("Request failed: " ++ toString (500 : Nat) ++ " " ++ "boom")) :=
  ⟨(resolver_status_classification resp401).1 rfl,
   (resolver_status_classification resp429).2.1 rfl,
   (resolver_status_classification resp500).2.2 (by decide) (by decide) (by decide) (by decide)⟩

/-- C10: every constructed `PolicyDeniedError` has a non-absent reason:
an absent or empty reason argument becomes "Access denied by policy", the
stored reason is never empty, and the formatted message contains both the
action and the stored reason. -/
theorem denial_reason_and_message (action : String) (policy rule reason : Option String) :
    ((reason = none ∨ reason = some "") →
      (PolicyDeniedError.init action policy rule reason).reason = "Access denied by policy") ∧
    (PolicyDeniedError.init action policy rule reason).reason ≠ "" ∧
    (∃ p q, (PolicyDeniedError.init action policy rule reason).message = p ++ (action ++ q)) ∧
    (∃ p, (PolicyDeniedError.init action policy rule reason).message =
      p ++ (PolicyDeniedError.init action policy rule reason).reason) := by
  refine ⟨?_, ?_, ?_, ?_⟩
  · rintro (h | h) <;> simp [PolicyDeniedError.init, pyOrStr, h]
  · rcases reason with _ | t
    · simp [PolicyDeniedError.init, pyOrStr]
    · by_cases ht : t = "" <;> simp [PolicyDeniedError.init, pyOrStr, ht]
  · simp only [PolicyDeniedError.init]
    rcases policy with _ | pv <;> rcases rule with _ | ru
    · exact ⟨"Action " ++ apos,
        apos ++ " denied" ++ ": " ++ pyOrStr reason "Access denied by policy",
        by simp [String.append_assoc]⟩
    · by_cases hru : ru = "" <;> simp only [hru, if_true, if_false, ite_true, ite_false]
      · exact ⟨"Action " ++ apos,
          apos ++ " denied" ++ ": " ++ pyOrStr reason "Access denied by policy",
          by simp [String.append_assoc]⟩
      · exact ⟨"Action " ++ apos,
          apos ++ " denied" ++ " (rule: " ++ ru ++ ")" ++ ": " ++
            pyOrStr reason "Access denied by policy",
          by simp [String.append_assoc]⟩
    · by_cases hpv : pv = "" <;> simp only [hpv, if_true, if_false, ite_true, ite_false]
      · exact ⟨"Action " ++ apos,
          apos ++ " denied" ++ ": " ++ pyOrStr reason "Access denied by policy",
          by simp [String.append_assoc]⟩
      · exact ⟨"Action " ++ apos,
          apos ++ " denied" ++ " by policy " ++ apos ++ pv ++ apos ++ ": " ++
            pyOrStr reason "Access denied by policy",
          by simp [String.append_assoc]⟩
    · by_cases hpv : pv = "" <;> by_cases hru : ru = "" <;>
        simp only [hpv, hru, if_true, if_false, ite_true, ite_false]
      · exact ⟨"Action " ++ apos,
          apos ++ " denied" ++ ": " ++ pyOrStr reason "Access denied by policy",
          by simp [String.append_assoc]⟩
      · exact ⟨"Action " ++ apos,
          apos ++ " denied" ++ " (rule: " ++ ru ++ ")" ++ ": " ++
            pyOrStr reason "Access denied by policy",
          by simp [String.append_assoc]⟩
      · exact ⟨"Action " ++ apos,
          apos ++ " denied" ++ " by policy " ++ apos ++ pv ++ apos ++ ": " ++
            pyOrStr reason "Access denied by policy",
          by simp [String.append_assoc]⟩
      · exact ⟨"Action " ++ apos,
          apos ++ " denied" ++ " by policy " ++ apos ++ pv ++ apos ++ " (rule: " ++ ru ++ ")" ++
            ": " ++ pyOrStr reason "Access denied by policy",
          by simp [String.append_assoc]⟩
  · simp only [PolicyDeniedError.init]
    exact ⟨_, rfl⟩

/-- Witness for C10 at a concrete denial with no reason supplied. -/
theorem denial_reason_and_message_witness :
    (PolicyDeniedError.init "read:contacts" none none none).reason = "Access denied by policy" ∧
    (PolicyDeniedError.init "read:contacts" none none none).reason ≠ "" :=
  ⟨(denial_reason_and_message "read:contacts" none none none).1 (Or.inl rfl),
   (denial_reason_and_message "read:contacts" none none none).2.1⟩

/-- C1: `enforce` performs exactly the single query `check` performs (the
issued requests are identical and there is exactly one), returns `check`'s
allow decision unchanged, raises the denial built from the deny decision's
attribution, and propagates `check`'s errors. -/
theorem enforce_equiv_check (c : MeshGuardClient) (action : String)
    (resource : Option String) (resp : Response) :
    (c.enforce action resource resp).1 = (c.check action resource resp).1 ∧
    (c.check action resource resp).1.length = 1 ∧
    (∀ d, (c.check action resource resp).2 = .ok d →
      (d.allowed = true → (c.enforce action resource resp).2 = .ok d) ∧
      (d.allowed = false → (c.enforce action resource resp).2 =
        .error (.policyDenied (PolicyDeniedError.init action d.policy d.rule d.reason)))) ∧
    (∀ e, (c.check action resource resp).2 = .error e →
      (c.enforce action resource resp).2 = .error e) := by
  have hlen : (c.check action resource resp).1.length = 1 := by
    by_cases h403 : resp.status = 403
    · simp [MeshGuardClient.check, h403]
    · cases hh : MeshGuardClient.handleResponse resp with
      | ok data => simp [MeshGuardClient.check, h403, hh]
      | error e => cases e <;> simp [MeshGuardClient.check, h403, hh]
  have hreq : (c.enforce action resource resp).1 = (c.check action resource resp).1 := by
    cases hc : (c.check action resource resp).2 with
    | error e => simp [MeshGuardClient.enforce, hc]
    | ok d => by_cases hd : d.allowed = true <;> simp [MeshGuardClient.enforce, hc, hd]
  refine ⟨hreq, hlen, ?_, ?_⟩
  · intro d hd
    exact ⟨fun hall => by simp [MeshGuardClient.enforce, hd, hall],
           fun hall => by simp [MeshGuardClient.enforce, hd, hall]⟩
  · intro e he
    simp [MeshGuardClient.enforce, he]

/-- Witness for C1: on a mocked 200 allow response, `enforce` returns the
same allow decision `check` produced. -/
theorem enforce_equiv_check_witness :
    (testClient.enforce "read:contacts" none resp200pol).2 = .ok decisionAllowEx :=
  ((enforce_equiv_check testClient "read:contacts" none resp200pol).2.2.1 decisionAllowEx
    (by decide)).1 (by decide)

/-- Shared helper: `check` issues exactly its one `/proxy/check` request,
whatever the response is. -/
theorem check_requests_eq (c : MeshGuardClient) (action : String)
    (resource : Option String) (resp : Response) :
    (c.check action resource resp).1 = [c.checkRequest action resource] := by
  by_cases h403 : resp.status = 403
  · simp [MeshGuardClient.check, h403]
  · cases hh : MeshGuardClient.handleResponse resp with
    | ok data => simp [MeshGuardClient.check, h403, hh]
    | error e => cases e <;> simp [MeshGuardClient.check, h403, hh]

/-- Shared helper: `enforce` issues exactly the requests `check` issues. -/
theorem enforce_requests_eq (c : MeshGuardClient) (action : String)
    (resource : Option String) (resp : Response) :
    (c.enforce action resource resp).1 = (c.check action resource resp).1 := by
  cases hc : (c.check action resource resp).2 with
  | error e => simp [MeshGuardClient.enforce, hc]
  | ok d => by_cases hd : d.allowed = true <;> simp [MeshGuardClient.enforce, hc, hd]

/-- C4: `check` converts only the policy-deny outcome (a 403, including a
`PolicyDeniedError` raised by the resolver below) into a returned deny
decision; every other error the resolver yields — authentication failure,
rate limit, generic failure — escapes `check` and propagates out of
`check`, `enforce` and `govern` unchanged; conversely an error out of
`check` is exactly the resolver's and is never a policy denial. -/
theorem check_swallows_only_policy_deny {σ α : Type} (c : MeshGuardClient) (action : String)
    (resource : Option String) (resp : Response)
    (body : PolicyDecision → σ → σ × α) (s : σ) :
    (resp.status = 403 →
      (c.check action resource resp).2 = .ok (c.denyDecisionOf action resp) ∧
      (c.denyDecisionOf action resp).allowed = false) ∧
    (∀ pd, MeshGuardClient.handleResponse resp = .error (.policyDenied pd) →
      (c.check action resource resp).2 = .ok (c.denyDecisionOf action resp)) ∧
    (∀ e, MeshGuardClient.handleResponse resp = .error e → (∀ pd, e ≠ .policyDenied pd) →
      (c.check action resource resp).2 = .error e ∧
      (c.enforce action resource resp).2 = .error e ∧
      (c.govern action resource resp body s).2.2 = .error e) ∧
    (∀ e, (c.check action resource resp).2 = .error e →
      MeshGuardClient.handleResponse resp = .error e ∧
      (∀ pd, e ≠ .policyDenied pd)) := by
  refine ⟨fun h403 => ⟨by simp [MeshGuardClient.check, h403], rfl⟩, ?_, ?_, ?_⟩
  · intro pd hh
    by_cases h403 : resp.status = 403
    · simp [MeshGuardClient.check, h403]
    · exfalso
      simp only [MeshGuardClient.handleResponse] at hh
      split_ifs at hh <;> simp_all
  · intro e hh hne
    have h403 : resp.status ≠ 403 := by
      intro h
      have h1 : MeshGuardClient.handleResponse resp =
          .error (.policyDenied (PolicyDeniedError.init
            ((resp.body.getD {}).action.getD "unknown") (resp.body.getD {}).policy
            (resp.body.getD {}).rule
            (some ((resp.body.getD {}).message.getD "Access denied by policy")))) := by
        simp [MeshGuardClient.handleResponse, h]
      rw [hh] at h1
      exact hne _ (Except.error.inj h1)
    have hc : (c.check action resource resp).2 = .error e := by
      cases e with
      | policyDenied pd => exact absurd rfl (hne pd)
      | meshGuardError m => simp [MeshGuardClient.check, h403, hh]
      | authenticationError m => simp [MeshGuardClient.check, h403, hh]
      | rateLimitError m => simp [MeshGuardClient.check, h403, hh]
    have henf : (c.enforce action resource resp).2 = .error e := by
      simp [MeshGuardClient.enforce, hc]
    exact ⟨hc, henf, by simp [MeshGuardClient.govern, henf]⟩
  · intro e he
    by_cases h403 : resp.status = 403
    · simp [MeshGuardClient.check, h403] at he
    · cases hh : MeshGuardClient.handleResponse resp with
      | ok data => simp [MeshGuardClient.check, h403, hh] at he
      | error err =>
        cases err with
        | policyDenied pd => simp [MeshGuardClient.check, h403, hh] at he
        | meshGuardError m =>
          have hc : (c.check action resource resp).2 = .error (.meshGuardError m) := by
            simp [MeshGuardClient.check, h403, hh]
          rw [hc] at he
          have he' : MGError.meshGuardError m = e := by simpa using he
          subst he'
          exact ⟨rfl, by simp⟩
        | authenticationError m =>
          have hc : (c.check action resource resp).2 = .error (.authenticationError m) := by
            simp [MeshGuardClient.check, h403, hh]
          rw [hc] at he
          have he' : MGError.authenticationError m = e := by simpa using he
          subst he'
          exact ⟨rfl, by simp⟩
        | rateLimitError m =>
          have hc : (c.check action resource resp).2 = .error (.rateLimitError m) := by
            simp [MeshGuardClient.check, h403, hh]
          rw [hc] at he
          have he' : MGError.rateLimitError m = e := by simpa using he
          subst he'
          exact ⟨rfl, by simp⟩

/-- Witness for C4 at a mocked 401 and a mocked 500: the authentication
failure and the generic failure each escape `check` and propagate through
`enforce` and `govern` unchanged. -/
theorem check_swallows_only_policy_deny_witness :
    (testClient.check "read:contacts" none resp401).2 =
      .error (.authenticationError "Invalid or expired token") ∧
    (testClient.enforce "read:contacts" none resp401).2 =
      .error (.authenticationError "Invalid or expired token") ∧
    (testClient.govern "read:contacts" none resp401 countingBody 0).2.2 =
      .error (.authenticationError "Invalid or expired token") ∧
    (testClient.enforce "read:contacts" none resp500).2 =
      .error (.meshGuardError "Request failed: 500 boom") :=
  ⟨((check_swallows_only_policy_deny testClient "read:contacts" none resp401 countingBody 0).2.2.1
      (.authenticationError "Invalid or expired token") (by decide) (by simp)).1,
   ((check_swallows_only_policy_deny testClient "read:contacts" none resp401 countingBody 0).2.2.1
      (.authenticationError "Invalid or expired token") (by decide) (by simp)).2.1,
   ((check_swallows_only_policy_deny testClient "read:contacts" none resp401 countingBody 0).2.2.1
      (.authenticationError "Invalid or expired token") (by decide) (by simp)).2.2,
   ((check_swallows_only_policy_deny testClient "read:contacts" none resp500 countingBody 0).2.2.1
      (.meshGuardError "Request failed: 500 boom") (by decide) (by simp)).2.1⟩

/-- Counterexample to C2: on a 403 with an empty body, the advisory
decision's reason is absent while the raised denial's reason is the
default, so the attribution fields are not all identical. -/
theorem check_enforce_reason_mismatch :
    (testClient.check "read:contacts" none resp403empty).2 = .ok checkDenyEmptyEx ∧
    (testClient.enforce "read:contacts" none resp403empty).2 =
      .error (.policyDenied enforceDenyEmptyEx) ∧
    checkDenyEmptyEx.reason = none ∧
    enforceDenyEmptyEx.reason = "Access denied by policy" ∧
    ¬ some enforceDenyEmptyEx.reason = checkDenyEmptyEx.reason := by decide

/-- C2 (amended): for every 403 response, `check` produces a deny decision
and `enforce` raises a `PolicyDeniedError` whose `policy`, `rule` and
`action` are identical to the decision's; the reason is identical whenever
the body carries a non-empty message, and otherwise the raised denial's
reason is the default "Access denied by policy" while the decision's
reason is the absent message. -/
theorem check_enforce_attribution (c : MeshGuardClient) (action : String)
    (resource : Option String) (resp : Response) (h403 : resp.status = 403) :
    (c.check action resource resp).2 = .ok (c.denyDecisionOf action resp) ∧
    (c.denyDecisionOf action resp).allowed = false ∧
    (c.enforce action resource resp).2 = .error (.policyDenied (MeshGuardClient.denialOf action resp)) ∧
    (MeshGuardClient.denialOf action resp).policy =
      (c.denyDecisionOf action resp).policy ∧
    (MeshGuardClient.denialOf action resp).rule =
      (c.denyDecisionOf action resp).rule ∧
    (MeshGuardClient.denialOf action resp).action = action ∧
    (c.denyDecisionOf action resp).action = action ∧
    (∀ m, (c.denyDecisionOf action resp).reason = some m → m ≠ "" →
      (MeshGuardClient.denialOf action resp).reason = m) ∧
    (((c.denyDecisionOf action resp).reason = none ∨
        (c.denyDecisionOf action resp).reason = some "") →
      (MeshGuardClient.denialOf action resp).reason =
        "Access denied by policy") := by
  have hc : (c.check action resource resp).2 = .ok (c.denyDecisionOf action resp) := by
    simp [MeshGuardClient.check, h403]
  have he : (c.enforce action resource resp).2 =
      .error (.policyDenied (MeshGuardClient.denialOf action resp)) := by
    simp [MeshGuardClient.enforce, hc, MeshGuardClient.denyDecisionOf,
      MeshGuardClient.denialOf]
  refine ⟨hc, rfl, he, rfl, rfl, rfl, rfl, ?_, ?_⟩
  · intro m hm hne
    simp only [MeshGuardClient.denyDecisionOf] at hm
    simp [MeshGuardClient.denialOf, PolicyDeniedError.init, pyOrStr, hm, hne]
  · rintro (h | h) <;> simp only [MeshGuardClient.denyDecisionOf] at h <;>
      simp [MeshGuardClient.denialOf, PolicyDeniedError.init, pyOrStr, h]

/-- Witness for C2 (amended) at a mocked 403 carrying a full denial body. -/
theorem check_enforce_attribution_witness :
    (testClient.check "delete:database" none resp403full).2 =
      .ok (testClient.denyDecisionOf "delete:database" resp403full) ∧
    (testClient.enforce "delete:database" none resp403full).2 =
      .error (.policyDenied (MeshGuardClient.denialOf "delete:database" resp403full)) ∧
    (MeshGuardClient.denialOf "delete:database" resp403full).reason =
      "Delete operations not allowed" :=
  ⟨(check_enforce_attribution testClient "delete:database" none resp403full rfl).1,
   (check_enforce_attribution testClient "delete:database" none resp403full rfl).2.2.1,
   (check_enforce_attribution testClient "delete:database" none resp403full rfl).2.2.2.2.2.2.2.1
     "Delete operations not allowed" rfl (by decide)⟩

/-- Counterexample to C3: on a 403 with an absent body, the advisory
`check` path keeps the requested action (not "unknown") and leaves the
reason absent (not "Access denied by policy"). -/
theorem check_403_empty_keeps_request_fields :
    (testClient.check "read:contacts" none resp403empty).2 = .ok checkDenyEmptyEx ∧
    checkDenyEmptyEx.action = "read:contacts" ∧
    ¬ checkDenyEmptyEx.action = "unknown" ∧
    ¬ checkDenyEmptyEx.reason = some "Access denied by policy" := by decide

/-- C3 (amended): a 403 with an empty or absent body resolves, in the
generic resolution path, to a raised denial with action "unknown" and
reason "Access denied by policy"; the advisory `check` path instead
returns a deny decision whose action is the requested action and whose
reason is absent. -/
theorem resolve_403_empty_defaults (c : MeshGuardClient) (action : String)
    (resource : Option String) (resp : Response) (h403 : resp.status = 403)
    (hbody : resp.body = none ∨ resp.body = some {}) :
    MeshGuardClient.handleResponse resp =
      .error (.policyDenied (PolicyDeniedError.init "unknown" none none
        (some "Access denied by policy"))) ∧
    (c.check action resource resp).2 = .ok
      { allowed := false, action := action, decision := "deny", policy := none,
        rule := none, reason := none, trace_id := some c.trace_id } := by
  have hb : resp.body.getD {} = {} := by rcases hbody with h | h <;> simp [h]
  constructor
  · simp [MeshGuardClient.handleResponse, h403, hb]
  · simp [MeshGuardClient.check, MeshGuardClient.denyDecisionOf, h403, hb]

/-- Witness for C3 (amended) at a bodyless 403. -/
theorem resolve_403_empty_defaults_witness :
    MeshGuardClient.handleResponse resp403empty =
      .error (.policyDenied (PolicyDeniedError.init "unknown" none none
        (some "Access denied by policy"))) ∧
    (testClient.check "read:contacts" none resp403empty).2 = .ok
      { allowed := false, action := "read:contacts", decision := "deny", policy := none,
        rule := none, reason := none, trace_id := some "trace-1" } :=
  resolve_403_empty_defaults testClient "read:contacts" none resp403empty rfl (Or.inl rfl)

/-- C6: the guarded body of `govern` executes exactly when `enforce`
succeeds: on any raised error the ambient state is untouched (the body
observably never ran) and the error propagates unchanged; on success the
body runs with the decision available; scope release
(`GovernedContext.exit`) performs no operation. -/
theorem govern_body_iff_enforce {σ α : Type} (c : MeshGuardClient) (action : String)
    (resource : Option String) (resp : Response)
    (body : PolicyDecision → σ → σ × α) (s : σ) :
    (∀ e, (c.enforce action resource resp).2 = .error e →
      c.govern action resource resp body s =
        ((c.enforce action resource resp).1, s, .error e)) ∧
    (∀ d, (c.enforce action resource resp).2 = .ok d →
      c.govern action resource resp body s =
        ((c.enforce action resource resp).1, GovernedContext.exit (body d s).1,
          .ok (body d s).2)) ∧
    (∀ t : σ, GovernedContext.exit t = t) := by
  refine ⟨fun e he => ?_, fun d hd => ?_, fun t => rfl⟩
  · simp [MeshGuardClient.govern, he]
  · simp [MeshGuardClient.govern, hd]

/-- Witness for C6: on a mocked 403 the side-effecting counter stays at 0
and the denial propagates; `GovernedContext.exit` is the identity. -/
theorem govern_body_iff_enforce_witness :
    testClient.govern "delete:database" none resp403full countingBody 0 =
      ((testClient.enforce "delete:database" none resp403full).1, 0,
        .error (.policyDenied (PolicyDeniedError.init "delete:database" (some "strict")
          (some "no-delete") (some "Delete operations not allowed")))) ∧
    GovernedContext.exit 7 = 7 :=
  ⟨(govern_body_iff_enforce testClient "delete:database" none resp403full countingBody 0).1
      (.policyDenied (PolicyDeniedError.init "delete:database" (some "strict")
        (some "no-delete") (some "Delete operations not allowed"))) (by decide),
   (govern_body_iff_enforce testClient "delete:database" none resp403full countingBody 0).2.2 7⟩

/-- C7: a governed tool's `run` first enforces the tool's action; when the
denial signal is raised and a deny-callback is configured the callback is
invoked with the denial and the original arguments and its result is
returned while the wrapped tool's invocation never runs (the ambient
state is untouched); with no callback the denial propagates; when
enforcement succeeds the arguments are forwarded unchanged and the
wrapped tool's result is returned verbatim. -/
theorem governed_tool_run_gating {σ α : Type} (t : GovernedTool σ α) (c : MeshGuardClient)
    (resp : Response) (args : List String) (s : σ) :
    (∀ e cb, (c.enforce t.action none resp).2 = .error (.policyDenied e) →
      t.on_deny = some cb → t.run c resp args s = (s, .ok (cb e args))) ∧
    (∀ e, (c.enforce t.action none resp).2 = .error (.policyDenied e) →
      t.on_deny = none → t.run c resp args s = (s, .error (.policyDenied e))) ∧
    (∀ d, (c.enforce t.action none resp).2 = .ok d →
      t.run c resp args s = ((t.toolRun args s).1, .ok (t.toolRun args s).2)) := by
  refine ⟨fun e cb he hcb => ?_, fun e he hcb => ?_, fun d hd => ?_⟩
  · simp [GovernedTool.run, he, hcb]
  · simp [GovernedTool.run, he, hcb]
  · simp [GovernedTool.run, hd]

/-- Witness for C7 (scenario 3): the governed tool with action
"write:dangerous" and a deny-callback returning "Access denied", against a
mocked 403, returns "Access denied" with the wrapped tool's call counter
still 0; without a callback the denial propagates. -/
theorem governed_tool_run_gating_witness :
    toolWithCallbackEx.run testClient resp403full [] 0 = (0, .ok "Access denied") ∧
    toolNoCallbackEx.run testClient resp403full [] 0 =
      (0, .error (.policyDenied (PolicyDeniedError.init "write:dangerous" (some "strict")
        (some "no-delete") (some "Delete operations not allowed")))) :=
  ⟨(governed_tool_run_gating toolWithCallbackEx testClient resp403full [] 0).1
      (PolicyDeniedError.init "write:dangerous" (some "strict") (some "no-delete")
        (some "Delete operations not allowed"))
      (fun _ _ => "Access denied") (by decide) rfl,
   (governed_tool_run_gating toolNoCallbackEx testClient resp403full [] 0).2.1
      (PolicyDeniedError.init "write:dangerous" (some "strict") (some "no-delete")
        (some "Delete operations not allowed")) (by decide) rfl⟩

/-- C8: a privileged operation on a client with no elevated credential
fails locally — no request is issued at all, for any response stimulus —
with the missing-credential failure, which is a different error value
from the 401 authentication failure. -/
theorem admin_requires_token_preflight (c : MeshGuardClient) (resp : Response)
    (h : c.admin_token = none) :
    c.list_agents resp =
      ([], .error (.authenticationError "Admin token required for this operation")) ∧
    (MGError.authenticationError "Admin token required for this operation" ≠
      MGError.authenticationError "Invalid or expired token") := by
  refine ⟨?_, by decide⟩
  simp [MeshGuardClient.list_agents, MeshGuardClient.adminHeaders, h]

/-- Witness for C8 on a token-less client. -/
theorem admin_requires_token_preflight_witness :
    testClient.list_agents resp200pol =
      ([], .error (.authenticationError "Admin token required for this operation")) ∧
    (MGError.authenticationError "Admin token required for this operation" ≠
      MGError.authenticationError "Invalid or expired token") :=
  admin_requires_token_preflight testClient resp200pol rfl

/-- Counterexample to C9: the health request is issued with no headers at
all, so the correlation id is not attached to every request the client
instance issues. -/
theorem health_request_lacks_trace_header :
    (MeshGuardClient.health testClient resp200empty).1 = [healthReqEx] ∧
    ¬ ("X-MeshGuard-Trace-ID", testClient.trace_id) ∈ healthReqEx.headers := by decide

/-- C9 (amended): exactly one correlation id is bound at construction
(freshly generated when not supplied, kept when supplied non-empty) and it
is attached as a header to every request issued through the policy, proxy
and admin paths (`check`, `enforce`, `request`, `list_agents`); the
health request alone is issued without it. -/
theorem trace_id_bound_once_and_attached (g a ad : Option String) (fl : Float)
    (eg ea ead : Option String) (fresh : String) (c : MeshGuardClient)
    (action method path : String) (resource : Option String) (resp : Response) :
    (MeshGuardClient.init g a ad fl none eg ea ead fresh).trace_id = fresh ∧
    (∀ t, t ≠ "" → (MeshGuardClient.init g a ad fl (some t) eg ea ead fresh).trace_id = t) ∧
    (∀ req ∈ (c.check action resource resp).1,
      ("X-MeshGuard-Trace-ID", c.trace_id) ∈ req.headers) ∧
    (∀ req ∈ (c.enforce action resource resp).1,
      ("X-MeshGuard-Trace-ID", c.trace_id) ∈ req.headers) ∧
    (∀ req ∈ (c.request method path action resp).1,
      ("X-MeshGuard-Trace-ID", c.trace_id) ∈ req.headers) ∧
    (∀ req ∈ (c.list_agents resp).1,
      ("X-MeshGuard-Trace-ID", c.trace_id) ∈ req.headers) := by
  have hmem : ("X-MeshGuard-Trace-ID", c.trace_id) ∈
      (c.checkRequest action resource).headers := by
    simp [MeshGuardClient.checkRequest, MeshGuardClient.reqHeaders]
  refine ⟨by simp [MeshGuardClient.init, pyOrStr],
    fun t ht => by simp [MeshGuardClient.init, pyOrStr, ht], ?_, ?_, ?_, ?_⟩
  · intro req hreq
    rw [check_requests_eq] at hreq
    simp only [List.mem_singleton] at hreq
    subst hreq
    exact hmem
  · intro req hreq
    rw [enforce_requests_eq, check_requests_eq] at hreq
    simp only [List.mem_singleton] at hreq
    subst hreq
    exact hmem
  · intro req hreq
    cases hh : MeshGuardClient.handleResponse resp with
    | ok data =>
      simp only [MeshGuardClient.request, hh, List.mem_singleton] at hreq
      subst hreq
      simp [MeshGuardClient.reqHeaders]
    | error e =>
      simp only [MeshGuardClient.request, hh, List.mem_singleton] at hreq
      subst hreq
      simp [MeshGuardClient.reqHeaders]
  · intro req hreq
    cases hadm : c.admin_token with
    | none => simp [MeshGuardClient.list_agents, MeshGuardClient.adminHeaders, hadm] at hreq
    | some tok =>
      by_cases htok : tok = ""
      · simp [MeshGuardClient.list_agents, MeshGuardClient.adminHeaders, hadm, htok] at hreq
      · cases hh : MeshGuardClient.handleResponse resp with
        | ok data =>
          simp only [MeshGuardClient.list_agents, MeshGuardClient.adminHeaders, hadm, htok,
            if_neg, ite_false, hh, List.mem_singleton] at hreq
          subst hreq
          simp
        | error e =>
          simp only [MeshGuardClient.list_agents, MeshGuardClient.adminHeaders, hadm, htok,
            if_neg, ite_false, hh, List.mem_singleton] at hreq
          subst hreq
          simp

/-- Witness for C9 (amended): a freshly generated id is bound when none is
supplied, and the trace header is on the concrete `check` request. -/
theorem trace_id_bound_once_and_attached_witness :
    (MeshGuardClient.init none none none 30.0 none none none none "uuid-1").trace_id =
      "uuid-1" ∧
    ("X-MeshGuard-Trace-ID", "trace-1") ∈ checkReqEx.headers :=
  ⟨(trace_id_bound_once_and_attached none none none 30.0 none none none "uuid-1" testClient
      "read:contacts" "GET" "p" none resp200pol).1,
   (trace_id_bound_once_and_attached none none none 30.0 none none none "uuid-1" testClient
      "read:contacts" "GET" "p" none resp200pol).2.2.1 checkReqEx (by decide)⟩

end MeshGuard
